import Mathlib

/-!
Verification of the page-info classifier of `pageinfo/pageinfo.py`.

The module infers `(current page, total pages, total lines)` from the
scrollbar geometry of a screenshot.  Image decoding, binarization and
contour extraction are external OpenCV capabilities; they enter the
embedding as abstract parameters (`contoursOf`, `shapeOf`, `draw`).
Everything the classifier itself computes — the three contour filters,
the three estimators and the orchestrator — is embedded directly from
the source.  Python float expressions over integer pixel inputs are
modelled with exact rational arithmetic.
-/

/-- A detected contour, reduced to the data the classifier reads from it:
the bounding rectangle `(x, y, w, h)` returned by `cv2.boundingRect` and
the enclosed area returned by `cv2.contourArea` (a float in the source,
a rational here). -/
structure Contour where
  x : ℤ
  y : ℤ
  w : ℤ
  h : ℤ
  area : ℚ

/-- The `im.shape[:2]` pair of a numpy image: `s0` is the first shape
component (the row count, i.e. the image height) and `s1` the second
(the column count, i.e. the image width). -/
structure ImShape where
  s0 : ℤ
  s1 : ℤ

/-- Failure modes: `cannotGuess` models `CannotGuessError` (the spec's
GeometryMismatch), `tooManyAreas` models `TooManyAreasDetectedError`
(the spec's AmbiguousDetection), and `zeroDivision` models the
`ZeroDivisionError` the Python runtime raises if a track height of zero
reaches the division in `guess_pagenum` or `guess_lines`. -/
inductive GuessError where
  | cannotGuess
  | tooManyAreas
  | zeroDivision

/-- The sentinel `NOSCROLL_PAGE_INFO = (1, 1, 0)` returned when no
scrollbar (or no scrollable area) is detected. -/
def NOSCROLL_PAGE_INFO : ℕ × ℕ × ℕ := (1, 1, 0)

/-- Embeds `filter_contour_qp(contour, im)`.  The source unpacks
`im.shape[:2]` as `im_w, im_h`, so `im_w` is bound to `shape[0]`, the
row count of the analyzed image. -/
def filter_contour_qp (contour : Contour) (im : ImShape) : Bool :=
  let im_w := im.s0
  let im_h := im.s1
  if contour.area * 25 < ((im_w * im_h : ℤ) : ℚ) then false
  else if contour.w < contour.h * 6 then false
  else if ¬ ((contour.w : ℚ) * 1.2 < (im_w : ℚ) ∧ (im_w : ℚ) < (contour.w : ℚ) * 2) then false
  else true

/-- Embeds `filter_contour_scrollbar(contour, im)`. -/
def filter_contour_scrollbar (contour : Contour) (im : ImShape) : Bool :=
  let im_w := im.s0
  let im_h := im.s1
  if contour.area * 80 < ((im_w * im_h : ℤ) : ℚ) then false
  else if contour.h < contour.w * 5 then false
  else true

/-- Embeds `filter_contour_scrollable_area(contour, im)`. -/
def filter_contour_scrollable_area (contour : Contour) (im : ImShape) : Bool :=
  let im_w := im.s0
  let im_h := im.s1
  if contour.area * 50 < ((im_w * im_h : ℤ) : ℚ) then false
  else if contour.h < contour.w * 10 then false
  else true

/-- Embeds `guess_pages(actual_width, actual_height, entire_width,
entire_height)`. -/
def guess_pages (actual_width actual_height entire_width entire_height : ℤ) :
    Except GuessError ℕ :=
  if |entire_width - actual_width| > 6 then .error .cannotGuess
  else if (actual_height : ℚ) * 1.1 > (entire_height : ℚ) then .ok 1
  else if (actual_height : ℚ) * 2.2 > (entire_height : ℚ) then .ok 2
  else .ok 3

/-- Embeds `guess_pagenum(actual_x, actual_y, entire_x, entire_y,
entire_height)`.  The `entire_height = 0` guard models the
`ZeroDivisionError` Python raises at `delta / entire_height`. -/
def guess_pagenum (actual_x actual_y entire_x entire_y entire_height : ℤ) :
    Except GuessError ℕ :=
  if |actual_x - entire_x| > 5 then .error .cannotGuess
  else if entire_height = 0 then .error .zeroDivision
  else
    let delta : ℚ := (actual_y : ℚ) - (entire_y : ℚ)
    let ratio := delta / (entire_height : ℚ)
    if ratio < 0.1 then .ok 1
    else if ratio < 0.52 then .ok 2
    else .ok 3

/-- Embeds `guess_lines(actual_width, actual_height, entire_width,
entire_height)`.  The `entire_height = 0` guard models the
`ZeroDivisionError` Python raises at `actual_height / entire_height`. -/
def guess_lines (actual_width actual_height entire_width entire_height : ℤ) :
    Except GuessError ℕ :=
  if |entire_width - actual_width| > 6 then .error .cannotGuess
  else if entire_height = 0 then .error .zeroDivision
  else
    let ratio := (actual_height : ℚ) / (entire_height : ℚ)
    if ratio > 0.9 then .ok 3
    else if ratio > 0.7 then .ok 4
    else if ratio > 0.57 then .ok 5
    else if ratio > 0.48 then .ok 6
    else if ratio > 0.4 then .ok 7
    else if ratio > 0.36 then .ok 8
    else .ok 9

/-- The pure classification chain of `guess_lines`, split out for the
monotonicity lemmas. -/
def classify_lines (r : ℚ) : ℕ :=
  if r > 0.9 then 3
  else if r > 0.7 then 4
  else if r > 0.57 then 5
  else if r > 0.48 then 6
  else if r > 0.4 then 7
  else if r > 0.36 then 8
  else 9

/-- Embeds `_detect_scrollbar_region(im, binary_threshold, filter_func)`.
The binarization-plus-`findContours` step is the external capability
`contoursAt`; the list filtering is the source's comprehension. -/
def _detect_scrollbar_region (contoursAt : ℤ → List Contour) (im : ImShape)
    (binary_threshold : ℤ) (filter_func : Contour → ImShape → Bool) : List Contour :=
  (contoursAt binary_threshold).filter (fun c => filter_func c im)

/-- Embeds `guess_pageinfo(im, debug_draw_image, debug_image_name)`.

The external OpenCV pipeline is abstracted: `contoursOf im t` is the
contour list extracted from the grayscale right-quarter crop of `im`
binarized at threshold `t`; `shapeOf im` is that crop's `shape[:2]`;
`draw im actual scrollable` is the buffer after `cv2.drawContours` has
rendered both overlay sets into the crop (the source's `cropped` is a
numpy view of `im`, so drawing mutates the caller's buffer — hence the
returned pair carries the possibly-updated buffer). -/
def guess_pageinfo {Img : Type} (contoursOf : Img → ℤ → List Contour)
    (shapeOf : Img → ImShape) (draw : Img → List Contour → List Contour → Img)
    (debug_draw_image : Bool) (im : Img) :
    Except GuessError (ℕ × ℕ × ℕ) × Img :=
  let threshold_for_actual : ℤ := 60
  let threshold_for_entire : ℤ := 25
  let actual_scrollbar_contours :=
    _detect_scrollbar_region (contoursOf im) (shapeOf im) threshold_for_actual
      filter_contour_scrollbar
  if actual_scrollbar_contours.length = 0 then (.ok NOSCROLL_PAGE_INFO, im)
  else
    let scrollable_area_contours :=
      _detect_scrollbar_region (contoursOf im) (shapeOf im) threshold_for_entire
        filter_contour_scrollable_area
    if scrollable_area_contours.length = 0 then (.ok NOSCROLL_PAGE_INFO, im)
    else
      let im2 :=
        if debug_draw_image then draw im actual_scrollbar_contours scrollable_area_contours
        else im
      if actual_scrollbar_contours.length > 1 then (.error .tooManyAreas, im2)
      else if scrollable_area_contours.length > 1 then (.error .tooManyAreas, im2)
      else
        match actual_scrollbar_contours, scrollable_area_contours with
        | a :: _, s :: _ =>
          ((do
            let pages ← guess_pages a.w a.h s.w s.h
            let pagenum ← guess_pagenum a.x a.y s.x s.y s.h
            let lines ← guess_lines a.w a.h s.w s.h
            pure (pagenum, pages, lines)), im2)
        | _, _ => (.ok NOSCROLL_PAGE_INFO, im2)

/-- A thumb-shaped contour sitting low in the track: bounding box
`(x, y, w, h) = (0, 54, 4, 46)`, area 180.  It passes
`filter_contour_scrollbar` against `shapeTall`. -/
def thumbLow : Contour := ⟨0, 54, 4, 46, 180⟩

/-- A thumb-shaped contour sitting at the top of the track: bounding box
`(0, 0, 4, 50)`, area 190. -/
def thumbTop : Contour := ⟨0, 0, 4, 50, 190⟩

/-- A track-shaped contour: bounding box `(0, 0, 4, 100)`, area 390.  It
passes `filter_contour_scrollable_area` against `shapeTall`. -/
def trackFull : Contour := ⟨0, 0, 4, 100, 390⟩

/-- A track-shaped contour whose width differs from `thumbLow`'s by 7:
bounding box `(0, 0, 11, 120)`, area 390. -/
def trackWide : Contour := ⟨0, 0, 11, 120, 390⟩

/-- Shape of a concrete analyzed crop: 100 rows, 30 columns. -/
def shapeTall : ImShape := ⟨100, 30⟩

/-- Scan model: one low thumb at the thumb threshold, one track at any
other threshold. -/
def contoursLow : Unit → ℤ → List Contour :=
  fun _ t => if t = 60 then [thumbLow] else [trackFull]

/-- Scan model: one top thumb at the thumb threshold, one track at any
other threshold. -/
def contoursTop : Unit → ℤ → List Contour :=
  fun _ t => if t = 60 then [thumbTop] else [trackFull]

/-- Scan model: two thumb candidates at the thumb threshold and no track
candidate at any other threshold. -/
def contoursAmbigNoTrack : Unit → ℤ → List Contour :=
  fun _ t => if t = 60 then [thumbLow, thumbLow] else []

/-- Scan model: two thumb candidates at the thumb threshold and one track
candidate at any other threshold. -/
def contoursAmbig : Unit → ℤ → List Contour :=
  fun _ t => if t = 60 then [thumbLow, thumbLow] else [trackFull]

/-- Scan model: a thumb and a track whose widths differ by 7. -/
def contoursMismatch : Unit → ℤ → List Contour :=
  fun _ t => if t = 60 then [thumbLow] else [trackWide]

/-- Buffer-sensitive scan model: on buffer 0 it finds one thumb and one
track; on any mutated buffer it finds nothing. -/
def contoursOfBuf : ℕ → ℤ → List Contour :=
  fun b t => if b = 0 then (if t = 60 then [thumbTop] else [trackFull]) else []

/-- Draw model that records its effect by bumping the buffer. -/
def drawBump : ℕ → List Contour → List Contour → ℕ := fun b _ _ => b + 1

/-- Identity draw model for instantiations where drawing never fires. -/
def drawId {Img : Type} : Img → List Contour → List Contour → Img := fun b _ _ => b

/-- Currency-band contour for the `filter_contour_qp` analysis: bounding
box `(0, 0, 210, 35)`, area 7106 (the contour area of a filled 210 by 35
rectangle). -/
def cQp : Contour := ⟨0, 0, 210, 35, 7106⟩

/-- Shape of the currency filter's analyzed crop: 300 rows and 500
columns, i.e. a landscape crop 500 pixels wide and 300 pixels tall. -/
def imQp : ImShape := ⟨300, 500⟩


lemma guess_pageinfo_single {Img : Type} (contoursOf : Img → ℤ → List Contour)
    (shapeOf : Img → ImShape) (draw : Img → List Contour → List Contour → Img)
    (debug : Bool) (im : Img) (a s : Contour)
    (h60 : _detect_scrollbar_region (contoursOf im) (shapeOf im) 60
      filter_contour_scrollbar = [a])
    (h25 : _detect_scrollbar_region (contoursOf im) (shapeOf im) 25
      filter_contour_scrollable_area = [s]) :
    (guess_pageinfo contoursOf shapeOf draw debug im).1 =
      (do
        let pages ← guess_pages a.w a.h s.w s.h
        let pagenum ← guess_pagenum a.x a.y s.x s.y s.h
        let lines ← guess_lines a.w a.h s.w s.h
        pure (pagenum, pages, lines)) := by
  unfold guess_pageinfo
  simp only [h60, h25]
  simp

lemma pagenum_le_pages (ax ay ex ey aw ah ew eh : ℤ)
    (hc1 : 0 ≤ ay - ey) (hc2 : ay - ey + ah ≤ eh)
    (hbig : (0.48 : ℚ) * (eh : ℚ) < (ah : ℚ))
    (n p : ℕ) (hn : guess_pagenum ax ay ex ey eh = .ok n)
    (hp : guess_pages aw ah ew eh = .ok p) : n ≤ p := by
  have hc1Q : (0 : ℚ) ≤ (ay : ℚ) - (ey : ℚ) := by exact_mod_cast hc1
  have hc2Q : (ay : ℚ) - (ey : ℚ) + (ah : ℚ) ≤ (eh : ℚ) := by exact_mod_cast hc2
  have hehQ : (0 : ℚ) < (eh : ℚ) := by nlinarith
  simp only [guess_pages] at hp
  simp only [guess_pagenum] at hn
  split_ifs at hn with g1 g2 g3 g4
  · -- current page 1: below every possible total
    have hn1 : 1 = n := Except.ok.inj hn
    split_ifs at hp with w1 w2 w3
    · have hp1 : 1 = p := Except.ok.inj hp
      omega
    · have hp2 : 2 = p := Except.ok.inj hp
      omega
    · have hp3 : 3 = p := Except.ok.inj hp
      omega
  · -- current page 2: a one-page total is impossible here
    have hn2 : 2 = n := Except.ok.inj hn
    split_ifs at hp with w1 w2 w3
    · exfalso
      have hlt : ((ay : ℚ) - (ey : ℚ)) / (eh : ℚ) < 0.1 := by
        rw [div_lt_iff₀ hehQ]
        linarith
      exact g3 hlt
    · have hp2 : 2 = p := Except.ok.inj hp
      omega
    · have hp3 : 3 = p := Except.ok.inj hp
      omega
  · -- current page 3: one- and two-page totals are impossible here
    have hn3 : 3 = n := Except.ok.inj hn
    split_ifs at hp with w1 w2 w3
    · exfalso
      have hlt : ((ay : ℚ) - (ey : ℚ)) / (eh : ℚ) < 0.1 := by
        rw [div_lt_iff₀ hehQ]
        linarith
      exact g3 hlt
    · exfalso
      have hlt : ((ay : ℚ) - (ey : ℚ)) / (eh : ℚ) < 0.52 := by
        rw [div_lt_iff₀ hehQ]
        linarith
      exact g4 hlt
    · have hp3 : 3 = p := Except.ok.inj hp
      omega

lemma guess_lines_eq_classify (aw ah ew eh : ℤ) (hw : ¬ |ew - aw| > 6) (heh : eh ≠ 0) :
    guess_lines aw ah ew eh = .ok (classify_lines ((ah : ℚ) / (eh : ℚ))) := by
  simp only [guess_lines, classify_lines]
  rw [if_neg hw, if_neg heh]
  split_ifs <;> rfl

set_option maxHeartbeats 1000000 in
lemma classify_lines_antitone {r s : ℚ} (hrs : r ≤ s) :
    classify_lines s ≤ classify_lines r := by
  unfold classify_lines
  split_ifs <;> first | rfl | omega | linarith

/-- C3: with the x tolerance satisfied and a positive track height,
`guess_pagenum` classifies `(thumbY - trackY) / trackHeight` by the
cut-points 0.10 and 0.52: below 0.10 page 1, in [0.10, 0.52) page 2,
at or above 0.52 page 3; in particular a zero vertical offset gives
page 1 and a ratio of exactly 0.52 gives page 3 (the boundary is
exclusive). -/
theorem c3_guess_pagenum_cutpoints (ax ay ex ey eh : ℤ) (heh : 0 < eh)
    (hx : |ax - ex| ≤ 5) :
    (((ay : ℚ) - (ey : ℚ)) / (eh : ℚ) < 0.1 →
      guess_pagenum ax ay ex ey eh = .ok 1) ∧
    (0.1 ≤ ((ay : ℚ) - (ey : ℚ)) / (eh : ℚ) →
      ((ay : ℚ) - (ey : ℚ)) / (eh : ℚ) < 0.52 →
      guess_pagenum ax ay ex ey eh = .ok 2) ∧
    (0.52 ≤ ((ay : ℚ) - (ey : ℚ)) / (eh : ℚ) →
      guess_pagenum ax ay ex ey eh = .ok 3) ∧
    (ay - ey = 0 → guess_pagenum ax ay ex ey eh = .ok 1) ∧
    (((ay : ℚ) - (ey : ℚ)) / (eh : ℚ) = 0.52 →
      guess_pagenum ax ay ex ey eh = .ok 3) := by
  have hx' : ¬ |ax - ex| > 5 := not_lt.mpr hx
  have heh' : ¬ eh = 0 := by omega
  simp only [guess_pagenum, if_neg hx', if_neg heh']
  refine ⟨fun hlo => by rw [if_pos hlo], fun hge hmid => ?_, fun hhi => ?_,
    fun hzero => ?_, fun hexact => ?_⟩
  · rw [if_neg (not_lt.mpr hge), if_pos hmid]
  · rw [if_neg (not_lt.mpr (by linarith)), if_neg (not_lt.mpr hhi)]
  · have hz : (ay : ℚ) - (ey : ℚ) = 0 := by exact_mod_cast hzero
    rw [if_pos (by rw [hz, zero_div]; norm_num)]
  · rw [if_neg (by rw [hexact]; norm_num), if_neg (by rw [hexact]; norm_num)]

/-- Witness for C3: at `(0, 13, 0, 0, 25)` the ratio is exactly 0.52 and
page 3 is returned; at `(0, 0, 0, 0, 100)` the offset is zero and page 1
is returned. -/
theorem c3_guess_pagenum_cutpoints_witness :
    guess_pagenum 0 13 0 0 25 = .ok 3 ∧ guess_pagenum 0 0 0 0 100 = .ok 1 := by
  constructor
  · exact (c3_guess_pagenum_cutpoints 0 13 0 0 25 (by norm_num)
      (by norm_num)).2.2.2.2 (by norm_num)
  · exact (c3_guess_pagenum_cutpoints 0 0 0 0 100 (by norm_num)
      (by norm_num)).2.2.2.1 (by norm_num)

/-- C4: with the width tolerance satisfied, `guess_pages` returns 1 when
thumbH * 1.1 > trackH, 2 when thumbH * 1.1 ≤ trackH and
thumbH * 2.2 > trackH, and 3 in all remaining cases; it never returns 4
or more, and the three spec examples evaluate as stated. -/
theorem c4_guess_pages_cutpoints (aw ah ew eh : ℤ) (hw : |ew - aw| ≤ 6) :
    ((ah : ℚ) * 1.1 > (eh : ℚ) → guess_pages aw ah ew eh = .ok 1) ∧
    ((ah : ℚ) * 1.1 ≤ (eh : ℚ) → (ah : ℚ) * 2.2 > (eh : ℚ) →
      guess_pages aw ah ew eh = .ok 2) ∧
    ((ah : ℚ) * 1.1 ≤ (eh : ℚ) → (ah : ℚ) * 2.2 ≤ (eh : ℚ) →
      guess_pages aw ah ew eh = .ok 3) ∧
    (∀ n : ℕ, guess_pages aw ah ew eh = .ok n → 1 ≤ n ∧ n ≤ 3) ∧
    guess_pages 100 110 100 100 = .ok 1 ∧
    guess_pages 100 60 100 100 = .ok 2 ∧
    guess_pages 100 30 100 100 = .ok 3 := by
  have hw' : ¬ |ew - aw| > 6 := not_lt.mpr hw
  refine ⟨fun hone => ?_, fun h1 h2 => ?_, fun h3 h4 => ?_, fun n hn => ?_, ?_, ?_, ?_⟩
  · simp only [guess_pages, if_neg hw']
    rw [if_pos hone]
  · simp only [guess_pages, if_neg hw']
    rw [if_neg (not_lt.mpr h1), if_pos h2]
  · simp only [guess_pages, if_neg hw']
    rw [if_neg (not_lt.mpr h3), if_neg (not_lt.mpr h4)]
  · simp only [guess_pages, if_neg hw'] at hn
    split_ifs at hn
    · have h1 : 1 = n := Except.ok.inj hn
      omega
    · have h2 : 2 = n := Except.ok.inj hn
      omega
    · have h3 : 3 = n := Except.ok.inj hn
      omega
  · norm_num [guess_pages]
  · norm_num [guess_pages]
  · norm_num [guess_pages]

/-- Witness for C4 at the spec's three example inputs. -/
theorem c4_guess_pages_cutpoints_witness :
    guess_pages 100 110 100 100 = .ok 1 ∧
    guess_pages 100 60 100 100 = .ok 2 ∧
    guess_pages 100 30 100 100 = .ok 3 := by
  refine ⟨?_, ?_, ?_⟩
  · exact (c4_guess_pages_cutpoints 100 110 100 100 (by norm_num)).1 (by norm_num)
  · exact (c4_guess_pages_cutpoints 100 60 100 100 (by norm_num)).2.1
      (by norm_num) (by norm_num)
  · exact (c4_guess_pages_cutpoints 100 30 100 100 (by norm_num)).2.2.1
      (by norm_num) (by norm_num)

lemma except_bind_ok {α β : Type} (a : α) (f : α → Except GuessError β) :
    (Except.ok a >>= f) = f a := rfl

lemma except_bind_error {α β : Type} (e : GuessError) (f : α → Except GuessError β) :
    ((Except.error e : Except GuessError α) >>= f) = Except.error e := rfl

lemma pageinfo_thumb_empty {Img : Type} (contoursOf : Img → ℤ → List Contour)
    (shapeOf : Img → ImShape) (draw : Img → List Contour → List Contour → Img)
    (debug : Bool) (im : Img)
    (h60 : _detect_scrollbar_region (contoursOf im) (shapeOf im) 60
      filter_contour_scrollbar = []) :
    (guess_pageinfo contoursOf shapeOf draw debug im).1 = .ok (1, 1, 0) := by
  unfold guess_pageinfo
  simp [h60, NOSCROLL_PAGE_INFO]

lemma pageinfo_track_empty {Img : Type} (contoursOf : Img → ℤ → List Contour)
    (shapeOf : Img → ImShape) (draw : Img → List Contour → List Contour → Img)
    (debug : Bool) (im : Img)
    (h25 : _detect_scrollbar_region (contoursOf im) (shapeOf im) 25
      filter_contour_scrollable_area = []) :
    (guess_pageinfo contoursOf shapeOf draw debug im).1 = .ok (1, 1, 0) := by
  unfold guess_pageinfo
  cases h1 : _detect_scrollbar_region (contoursOf im) (shapeOf im) 60
      filter_contour_scrollbar with
  | nil => simp [h1, NOSCROLL_PAGE_INFO]
  | cons a t => simp [h1, h25, NOSCROLL_PAGE_INFO]

lemma pageinfo_snd_single {Img : Type} (contoursOf : Img → ℤ → List Contour)
    (shapeOf : Img → ImShape) (draw : Img → List Contour → List Contour → Img)
    (im : Img) (a s : Contour)
    (h60 : _detect_scrollbar_region (contoursOf im) (shapeOf im) 60
      filter_contour_scrollbar = [a])
    (h25 : _detect_scrollbar_region (contoursOf im) (shapeOf im) 25
      filter_contour_scrollable_area = [s]) :
    (guess_pageinfo contoursOf shapeOf draw true im).2 = draw im [a] [s] := by
  unfold guess_pageinfo
  simp only [h60, h25]
  simp

lemma filter_scrollbar_thumbLow : filter_contour_scrollbar thumbLow shapeTall = true := by
  norm_num [filter_contour_scrollbar, thumbLow, shapeTall]

lemma filter_scrollbar_thumbTop : filter_contour_scrollbar thumbTop shapeTall = true := by
  norm_num [filter_contour_scrollbar, thumbTop, shapeTall]

lemma filter_scrollable_trackFull :
    filter_contour_scrollable_area trackFull shapeTall = true := by
  norm_num [filter_contour_scrollable_area, trackFull, shapeTall]

lemma filter_scrollable_trackWide :
    filter_contour_scrollable_area trackWide shapeTall = true := by
  norm_num [filter_contour_scrollable_area, trackWide, shapeTall]

lemma detect_low_60 :
    _detect_scrollbar_region (contoursLow ()) shapeTall 60 filter_contour_scrollbar
      = [thumbLow] := by
  simp [_detect_scrollbar_region, contoursLow, List.filter, filter_scrollbar_thumbLow]

lemma detect_low_25 :
    _detect_scrollbar_region (contoursLow ()) shapeTall 25 filter_contour_scrollable_area
      = [trackFull] := by
  simp [_detect_scrollbar_region, contoursLow, List.filter, filter_scrollable_trackFull]

lemma detect_top_60 :
    _detect_scrollbar_region (contoursTop ()) shapeTall 60 filter_contour_scrollbar
      = [thumbTop] := by
  simp [_detect_scrollbar_region, contoursTop, List.filter, filter_scrollbar_thumbTop]

lemma detect_top_25 :
    _detect_scrollbar_region (contoursTop ()) shapeTall 25 filter_contour_scrollable_area
      = [trackFull] := by
  simp [_detect_scrollbar_region, contoursTop, List.filter, filter_scrollable_trackFull]

lemma detect_ambigNoTrack_60 :
    _detect_scrollbar_region (contoursAmbigNoTrack ()) shapeTall 60 filter_contour_scrollbar
      = [thumbLow, thumbLow] := by
  simp [_detect_scrollbar_region, contoursAmbigNoTrack, List.filter, filter_scrollbar_thumbLow]

lemma detect_ambigNoTrack_25 :
    _detect_scrollbar_region (contoursAmbigNoTrack ()) shapeTall 25
      filter_contour_scrollable_area = [] := by
  simp [_detect_scrollbar_region, contoursAmbigNoTrack, List.filter]

lemma detect_ambig_60 :
    _detect_scrollbar_region (contoursAmbig ()) shapeTall 60 filter_contour_scrollbar
      = [thumbLow, thumbLow] := by
  simp [_detect_scrollbar_region, contoursAmbig, List.filter, filter_scrollbar_thumbLow]

lemma detect_ambig_25 :
    _detect_scrollbar_region (contoursAmbig ()) shapeTall 25 filter_contour_scrollable_area
      = [trackFull] := by
  simp [_detect_scrollbar_region, contoursAmbig, List.filter, filter_scrollable_trackFull]

lemma detect_mismatch_60 :
    _detect_scrollbar_region (contoursMismatch ()) shapeTall 60 filter_contour_scrollbar
      = [thumbLow] := by
  simp [_detect_scrollbar_region, contoursMismatch, List.filter, filter_scrollbar_thumbLow]

lemma detect_mismatch_25 :
    _detect_scrollbar_region (contoursMismatch ()) shapeTall 25 filter_contour_scrollable_area
      = [trackWide] := by
  simp [_detect_scrollbar_region, contoursMismatch, List.filter, filter_scrollable_trackWide]

lemma detect_buf0_60 :
    _detect_scrollbar_region (contoursOfBuf 0) shapeTall 60 filter_contour_scrollbar
      = [thumbTop] := by
  simp [_detect_scrollbar_region, contoursOfBuf, List.filter, filter_scrollbar_thumbTop]

lemma detect_buf0_25 :
    _detect_scrollbar_region (contoursOfBuf 0) shapeTall 25 filter_contour_scrollable_area
      = [trackFull] := by
  simp [_detect_scrollbar_region, contoursOfBuf, List.filter, filter_scrollable_trackFull]

lemma detect_buf1_60 :
    _detect_scrollbar_region (contoursOfBuf 1) shapeTall 60 filter_contour_scrollbar
      = [] := by
  simp [_detect_scrollbar_region, contoursOfBuf, List.filter]

lemma pages_4_46 : guess_pages 4 46 4 100 = .ok 2 := by norm_num [guess_pages]

lemma pagenum_0_54 : guess_pagenum 0 54 0 0 100 = .ok 3 := by norm_num [guess_pagenum]

lemma lines_4_46 : guess_lines 4 46 4 100 = .ok 7 := by norm_num [guess_lines]

lemma pages_4_50 : guess_pages 4 50 4 100 = .ok 2 := by norm_num [guess_pages]

lemma pagenum_0_0 : guess_pagenum 0 0 0 0 100 = .ok 1 := by norm_num [guess_pagenum]

lemma lines_4_50 : guess_lines 4 50 4 100 = .ok 6 := by norm_num [guess_lines]

/-- C5: with the width tolerance satisfied and a positive track height,
`guess_lines` classifies `ratio = thumbH / trackH` by the exact
descending cut-points 0.90, 0.70, 0.57, 0.48, 0.40, 0.36 into the line
counts 3, 4, 5, 6, 7, 8 and the saturating cap 9; consequently the
returned line count is monotonically non-increasing as the ratio
increases. -/
theorem c5_guess_lines_cutpoints (aw ah ew eh : ℤ) (hw : |ew - aw| ≤ 6)
    (heh : 0 < eh) :
    ((ah : ℚ) / (eh : ℚ) > 0.9 → guess_lines aw ah ew eh = .ok 3) ∧
    ((ah : ℚ) / (eh : ℚ) ≤ 0.9 → (ah : ℚ) / (eh : ℚ) > 0.7 →
      guess_lines aw ah ew eh = .ok 4) ∧
    ((ah : ℚ) / (eh : ℚ) ≤ 0.7 → (ah : ℚ) / (eh : ℚ) > 0.57 →
      guess_lines aw ah ew eh = .ok 5) ∧
    ((ah : ℚ) / (eh : ℚ) ≤ 0.57 → (ah : ℚ) / (eh : ℚ) > 0.48 →
      guess_lines aw ah ew eh = .ok 6) ∧
    ((ah : ℚ) / (eh : ℚ) ≤ 0.48 → (ah : ℚ) / (eh : ℚ) > 0.4 →
      guess_lines aw ah ew eh = .ok 7) ∧
    ((ah : ℚ) / (eh : ℚ) ≤ 0.4 → (ah : ℚ) / (eh : ℚ) > 0.36 →
      guess_lines aw ah ew eh = .ok 8) ∧
    ((ah : ℚ) / (eh : ℚ) ≤ 0.36 → guess_lines aw ah ew eh = .ok 9) ∧
    (∀ aw2 ah2 ew2 eh2 : ℤ, |ew2 - aw2| ≤ 6 → 0 < eh2 →
      (ah : ℚ) / (eh : ℚ) ≤ (ah2 : ℚ) / (eh2 : ℚ) →
      ∀ m m2 : ℕ, guess_lines aw ah ew eh = .ok m →
        guess_lines aw2 ah2 ew2 eh2 = .ok m2 → m2 ≤ m) := by
  have hw' : ¬ |ew - aw| > 6 := not_lt.mpr hw
  have heh' : eh ≠ 0 := by omega
  rw [guess_lines_eq_classify aw ah ew eh hw' heh']
  refine ⟨fun ha1 => ?_, fun hb1 hb2 => ?_, fun hc1 hc2 => ?_, fun hd1 hd2 => ?_,
    fun he1 he2 => ?_, fun hf1 hf2 => ?_, fun hg1 => ?_,
    fun aw2 ah2 ew2 eh2 hw2 heh2 hr m m2 hm hm2 => ?_⟩
  · unfold classify_lines
    rw [if_pos ha1]
  · unfold classify_lines
    rw [if_neg (not_lt.mpr hb1), if_pos hb2]
  · unfold classify_lines
    rw [if_neg (not_lt.mpr (by linarith)), if_neg (not_lt.mpr hc1), if_pos hc2]
  · unfold classify_lines
    rw [if_neg (not_lt.mpr (by linarith)), if_neg (not_lt.mpr (by linarith)),
      if_neg (not_lt.mpr hd1), if_pos hd2]
  · unfold classify_lines
    rw [if_neg (not_lt.mpr (by linarith)), if_neg (not_lt.mpr (by linarith)),
      if_neg (not_lt.mpr (by linarith)), if_neg (not_lt.mpr he1), if_pos he2]
  · unfold classify_lines
    rw [if_neg (not_lt.mpr (by linarith)), if_neg (not_lt.mpr (by linarith)),
      if_neg (not_lt.mpr (by linarith)), if_neg (not_lt.mpr (by linarith)),
      if_neg (not_lt.mpr hf1), if_pos hf2]
  · unfold classify_lines
    rw [if_neg (not_lt.mpr (by linarith)), if_neg (not_lt.mpr (by linarith)),
      if_neg (not_lt.mpr (by linarith)), if_neg (not_lt.mpr (by linarith)),
      if_neg (not_lt.mpr (by linarith)), if_neg (not_lt.mpr hg1)]
  · have hw2' : ¬ |ew2 - aw2| > 6 := not_lt.mpr hw2
    have heh2' : eh2 ≠ 0 := by omega
    rw [guess_lines_eq_classify aw2 ah2 ew2 eh2 hw2' heh2'] at hm2
    have e1 : classify_lines ((ah : ℚ) / (eh : ℚ)) = m := Except.ok.inj hm
    have e2 : classify_lines ((ah2 : ℚ) / (eh2 : ℚ)) = m2 := Except.ok.inj hm2
    rw [← e1, ← e2]
    exact classify_lines_antitone hr

/-- Witness for C5 at the spec's sample ratios 0.95, 0.80, 0.60, 0.50,
0.42, 0.38 and 0.20 over a track height of 100, plus one concrete
application of the monotonicity part. -/
theorem c5_guess_lines_cutpoints_witness :
    guess_lines 0 95 0 100 = .ok 3 ∧ guess_lines 0 80 0 100 = .ok 4 ∧
    guess_lines 0 60 0 100 = .ok 5 ∧ guess_lines 0 50 0 100 = .ok 6 ∧
    guess_lines 0 42 0 100 = .ok 7 ∧ guess_lines 0 38 0 100 = .ok 8 ∧
    guess_lines 0 20 0 100 = .ok 9 ∧ (3 : ℕ) ≤ 9 := by
  have top := (c5_guess_lines_cutpoints 0 95 0 100 (by norm_num) (by norm_num)).1
    (by norm_num)
  have bot := (c5_guess_lines_cutpoints 0 20 0 100 (by norm_num)
    (by norm_num)).2.2.2.2.2.2.1 (by norm_num)
  have step := (c5_guess_lines_cutpoints 0 20 0 100 (by norm_num)
    (by norm_num)).2.2.2.2.2.2.2 0 95 0 100 (by norm_num) (by norm_num)
    (by norm_num) 9 3 bot top
  exact ⟨top,
    (c5_guess_lines_cutpoints 0 80 0 100 (by norm_num) (by norm_num)).2.1
      (by norm_num) (by norm_num),
    (c5_guess_lines_cutpoints 0 60 0 100 (by norm_num) (by norm_num)).2.2.1
      (by norm_num) (by norm_num),
    (c5_guess_lines_cutpoints 0 50 0 100 (by norm_num) (by norm_num)).2.2.2.1
      (by norm_num) (by norm_num),
    (c5_guess_lines_cutpoints 0 42 0 100 (by norm_num) (by norm_num)).2.2.2.2.1
      (by norm_num) (by norm_num),
    (c5_guess_lines_cutpoints 0 38 0 100 (by norm_num) (by norm_num)).2.2.2.2.2.1
      (by norm_num) (by norm_num),
    bot, step⟩

/-- C8: `guess_pages` and `guess_lines` fail with the geometry-mismatch
error (`cannotGuess`, the spec's GeometryMismatch) exactly when the two
widths differ by more than 6, and `guess_pagenum` exactly when the two x
positions differ by more than 5; and when the two scans each yield a
single region, `guess_pageinfo` propagates any estimator error unchanged
to its caller. -/
theorem c8_geometry_mismatch (aw ah ew eh ax ay ex ey : ℤ) :
    (guess_pages aw ah ew eh = .error .cannotGuess ↔ 6 < |ew - aw|) ∧
    (guess_lines aw ah ew eh = .error .cannotGuess ↔ 6 < |ew - aw|) ∧
    (guess_pagenum ax ay ex ey eh = .error .cannotGuess ↔ 5 < |ax - ex|) ∧
    (∀ (Img : Type) (contoursOf : Img → ℤ → List Contour)
      (shapeOf : Img → ImShape) (draw : Img → List Contour → List Contour → Img)
      (debug : Bool) (im : Img) (a s : Contour),
      _detect_scrollbar_region (contoursOf im) (shapeOf im) 60
        filter_contour_scrollbar = [a] →
      _detect_scrollbar_region (contoursOf im) (shapeOf im) 25
        filter_contour_scrollable_area = [s] →
      ∀ e : GuessError,
        (guess_pages a.w a.h s.w s.h = .error e →
          (guess_pageinfo contoursOf shapeOf draw debug im).1 = .error e) ∧
        (∀ np : ℕ, guess_pages a.w a.h s.w s.h = .ok np →
          guess_pagenum a.x a.y s.x s.y s.h = .error e →
          (guess_pageinfo contoursOf shapeOf draw debug im).1 = .error e) ∧
        (∀ np nn : ℕ, guess_pages a.w a.h s.w s.h = .ok np →
          guess_pagenum a.x a.y s.x s.y s.h = .ok nn →
          guess_lines a.w a.h s.w s.h = .error e →
          (guess_pageinfo contoursOf shapeOf draw debug im).1 = .error e)) := by
  have part_pages : guess_pages aw ah ew eh = .error .cannotGuess ↔ 6 < |ew - aw| := by
    constructor
    · intro herr
      by_cases hw : 6 < |ew - aw|
      · exact hw
      · exfalso
        simp only [guess_pages, if_neg hw] at herr
        split_ifs at herr
    · intro hw
      simp only [guess_pages, if_pos hw]
  have part_lines : guess_lines aw ah ew eh = .error .cannotGuess ↔ 6 < |ew - aw| := by
    constructor
    · intro herr
      by_cases hw : 6 < |ew - aw|
      · exact hw
      · exfalso
        simp only [guess_lines, if_neg hw] at herr
        split_ifs at herr
        simp at herr
    · intro hw
      simp only [guess_lines, if_pos hw]
  have part_pagenum :
      guess_pagenum ax ay ex ey eh = .error .cannotGuess ↔ 5 < |ax - ex| := by
    constructor
    · intro herr
      by_cases hx : 5 < |ax - ex|
      · exact hx
      · exfalso
        simp only [guess_pagenum, if_neg hx] at herr
        split_ifs at herr
        simp at herr
    · intro hx
      simp only [guess_pagenum, if_pos hx]
  refine ⟨part_pages, part_lines, part_pagenum, ?_⟩
  intro Img contoursOf shapeOf draw debug im a s h60 h25 e
  have base := guess_pageinfo_single contoursOf shapeOf draw debug im a s h60 h25
  refine ⟨fun hp => ?_, fun np hp hn => ?_, fun np nn hp hn hl => ?_⟩
  · rw [base, hp, except_bind_error]
  · rw [base, hp, except_bind_ok]
    rw [hn, except_bind_error]
  · rw [base, hp, except_bind_ok]
    rw [hn, except_bind_ok]
    rw [hl, except_bind_error]

/-- Witness for C8: a width difference of 7 makes `guess_pages` fail, and
with a concrete scan pair whose widths differ by 7 the orchestrator
surfaces the same `cannotGuess` error. -/
theorem c8_geometry_mismatch_witness :
    guess_pages 0 1 7 1 = .error .cannotGuess ∧
    guess_lines 0 1 7 1 = .error .cannotGuess ∧
    guess_pagenum 0 0 6 0 1 = .error .cannotGuess ∧
    (guess_pageinfo contoursMismatch (fun _ => shapeTall) drawId false ()).1 =
      .error .cannotGuess :=
  ⟨(c8_geometry_mismatch 0 1 7 1 0 0 0 0).1.mpr (by norm_num),
   (c8_geometry_mismatch 0 1 7 1 0 0 0 0).2.1.mpr (by norm_num),
   (c8_geometry_mismatch 0 0 0 0 0 0 6 0).2.2.1.mpr (by norm_num),
   ((c8_geometry_mismatch thumbLow.w thumbLow.h trackWide.w trackWide.h
      0 0 0 0).2.2.2 Unit contoursMismatch (fun _ => shapeTall) drawId false ()
      thumbLow trackWide detect_mismatch_60 detect_mismatch_25 .cannotGuess).1
      (by norm_num [guess_pages, thumbLow, trackWide])⟩

/-- C6: if the thumb-threshold scan yields no surviving candidate, or it
yields at least one candidate but the track-threshold scan yields none,
`guess_pageinfo` returns exactly the no-scrollbar sentinel `(1, 1, 0)` as
a normal success value and raises no error. -/
theorem c6_noscroll_sentinel (Img : Type) (contoursOf : Img → ℤ → List Contour)
    (shapeOf : Img → ImShape) (draw : Img → List Contour → List Contour → Img)
    (debug : Bool) (im : Img)
    (h : _detect_scrollbar_region (contoursOf im) (shapeOf im) 60
        filter_contour_scrollbar = [] ∨
      (_detect_scrollbar_region (contoursOf im) (shapeOf im) 60
        filter_contour_scrollbar ≠ [] ∧
       _detect_scrollbar_region (contoursOf im) (shapeOf im) 25
        filter_contour_scrollable_area = [])) :
    (guess_pageinfo contoursOf shapeOf draw debug im).1 = .ok (1, 1, 0) := by
  rcases h with h60 | ⟨h60, h25⟩
  · exact pageinfo_thumb_empty contoursOf shapeOf draw debug im h60
  · exact pageinfo_track_empty contoursOf shapeOf draw debug im h25

/-- Witness for C6: a scan that finds nothing at either threshold makes
the orchestrator return the sentinel. -/
theorem c6_noscroll_sentinel_witness :
    (guess_pageinfo (fun (_ : Unit) (_ : ℤ) => ([] : List Contour))
      (fun _ => shapeTall) drawId false ()).1 = .ok (1, 1, 0) :=
  c6_noscroll_sentinel Unit (fun _ _ => []) (fun _ => shapeTall) drawId false ()
    (Or.inl rfl)

/-- C10: if the thumb-threshold scan yields more than one surviving
candidate but the track-threshold scan yields none, `guess_pageinfo`
returns the no-scrollbar sentinel `(1, 1, 0)` and does not raise the
ambiguity error: the zero-track fallback is checked before the
cardinality checks. -/
theorem c10_ambiguous_thumb_without_track (Img : Type)
    (contoursOf : Img → ℤ → List Contour) (shapeOf : Img → ImShape)
    (draw : Img → List Contour → List Contour → Img) (debug : Bool) (im : Img)
    (h60 : 1 < (_detect_scrollbar_region (contoursOf im) (shapeOf im) 60
      filter_contour_scrollbar).length)
    (h25 : _detect_scrollbar_region (contoursOf im) (shapeOf im) 25
      filter_contour_scrollable_area = []) :
    (guess_pageinfo contoursOf shapeOf draw debug im).1 = .ok (1, 1, 0) :=
  pageinfo_track_empty contoursOf shapeOf draw debug im h25

/-- Witness for C10: two thumb candidates but no track candidate yield
the sentinel. -/
theorem c10_ambiguous_thumb_without_track_witness :
    (guess_pageinfo contoursAmbigNoTrack (fun _ => shapeTall) drawId false ()).1 =
      .ok (1, 1, 0) :=
  c10_ambiguous_thumb_without_track Unit contoursAmbigNoTrack (fun _ => shapeTall)
    drawId false ()
    (by rw [detect_ambigNoTrack_60]; norm_num)
    detect_ambigNoTrack_25

/-- C7 counterexample: a scan pair where the thumb threshold yields two
surviving candidates while the track threshold yields none; the claim
says this must raise the ambiguity error, but `guess_pageinfo` returns
the sentinel `(1, 1, 0)` instead. -/
theorem c7_counterexample :
    1 < (_detect_scrollbar_region (contoursAmbigNoTrack ()) shapeTall 60
      filter_contour_scrollbar).length ∧
    (guess_pageinfo contoursAmbigNoTrack (fun _ => shapeTall) drawId false ()).1 =
      .ok (1, 1, 0) := by
  constructor
  · rw [detect_ambigNoTrack_60]
    norm_num
  · exact pageinfo_track_empty contoursAmbigNoTrack (fun _ => shapeTall) drawId
      false () detect_ambigNoTrack_25

/-- C7 (amended): if both scans yield at least one surviving candidate
and either scan yields more than one, `guess_pageinfo` raises the
ambiguity error `tooManyAreas` rather than picking among the candidates
or returning a PageInfo value. -/
theorem c7_ambiguous_detection (Img : Type) (contoursOf : Img → ℤ → List Contour)
    (shapeOf : Img → ImShape) (draw : Img → List Contour → List Contour → Img)
    (debug : Bool) (im : Img)
    (h60 : 0 < (_detect_scrollbar_region (contoursOf im) (shapeOf im) 60
      filter_contour_scrollbar).length)
    (h25 : 0 < (_detect_scrollbar_region (contoursOf im) (shapeOf im) 25
      filter_contour_scrollable_area).length)
    (hgt : 1 < (_detect_scrollbar_region (contoursOf im) (shapeOf im) 60
        filter_contour_scrollbar).length ∨
      1 < (_detect_scrollbar_region (contoursOf im) (shapeOf im) 25
        filter_contour_scrollable_area).length) :
    (guess_pageinfo contoursOf shapeOf draw debug im).1 = .error .tooManyAreas := by
  unfold guess_pageinfo
  have h60' : ¬ (_detect_scrollbar_region (contoursOf im) (shapeOf im) 60
      filter_contour_scrollbar).length = 0 := by omega
  have h25' : ¬ (_detect_scrollbar_region (contoursOf im) (shapeOf im) 25
      filter_contour_scrollable_area).length = 0 := by omega
  rcases hgt with hg | hg
  · simp [h60', h25', hg]
  · by_cases h1 : 1 < (_detect_scrollbar_region (contoursOf im) (shapeOf im) 60
        filter_contour_scrollbar).length
    · simp [h60', h25', h1]
    · simp [h60', h25', h1, hg]

/-- Witness for C7 (amended): two thumb candidates and one track
candidate produce the ambiguity error. -/
theorem c7_ambiguous_detection_witness :
    (guess_pageinfo contoursAmbig (fun _ => shapeTall) drawId false ()).1 =
      .error .tooManyAreas :=
  c7_ambiguous_detection Unit contoursAmbig (fun _ => shapeTall) drawId false ()
    (by rw [detect_ambig_60]; norm_num)
    (by rw [detect_ambig_25]; norm_num)
    (Or.inl (by rw [detect_ambig_60]; norm_num))

/-- C1 counterexample: a thumb box `(0, 54, 4, 46)` and track box
`(0, 0, 4, 100)` pass both geometry preconditions, yet `guess_pageinfo`
returns the triple `(3, 2, 7)` with current page 3 above the total page
count 2 — the claimed invariant does not hold for every non-error
result. -/
theorem c1_counterexample :
    (guess_pageinfo contoursLow (fun _ => shapeTall) drawId false ()).1 =
      .ok (3, 2, 7) ∧ ¬ (3 ≤ 2) := by
  constructor
  · rw [guess_pageinfo_single contoursLow (fun _ => shapeTall) drawId false ()
      thumbLow trackFull detect_low_60 detect_low_25]
    simp [thumbLow, trackFull, pages_4_46, pagenum_0_54, lines_4_46,
      except_bind_ok]
  · omega

/-- C1 (amended): when the single detected thumb additionally lies
vertically inside the single detected track and its height exceeds 0.48
of the track height, every successful `guess_pageinfo` triple satisfies
currentPage ≤ totalPages. -/
theorem c1_page_invariant (Img : Type) (contoursOf : Img → ℤ → List Contour)
    (shapeOf : Img → ImShape) (draw : Img → List Contour → List Contour → Img)
    (debug : Bool) (im : Img) (a s : Contour)
    (h60 : _detect_scrollbar_region (contoursOf im) (shapeOf im) 60
      filter_contour_scrollbar = [a])
    (h25 : _detect_scrollbar_region (contoursOf im) (shapeOf im) 25
      filter_contour_scrollable_area = [s])
    (hc1 : 0 ≤ a.y - s.y) (hc2 : a.y - s.y + a.h ≤ s.h)
    (hbig : (0.48 : ℚ) * (s.h : ℚ) < (a.h : ℚ))
    (n p l : ℕ)
    (hres : (guess_pageinfo contoursOf shapeOf draw debug im).1 = .ok (n, p, l)) :
    n ≤ p := by
  rw [guess_pageinfo_single contoursOf shapeOf draw debug im a s h60 h25] at hres
  cases hp : guess_pages a.w a.h s.w s.h with
  | error e =>
    rw [hp, except_bind_error] at hres
    exact absurd hres (by simp)
  | ok p0 =>
    rw [hp, except_bind_ok] at hres
    cases hn : guess_pagenum a.x a.y s.x s.y s.h with
    | error e =>
      rw [hn, except_bind_error] at hres
      exact absurd hres (by simp)
    | ok n0 =>
      rw [hn, except_bind_ok] at hres
      cases hl : guess_lines a.w a.h s.w s.h with
      | error e =>
        rw [hl, except_bind_error] at hres
        exact absurd hres (by simp)
      | ok l0 =>
        rw [hl, except_bind_ok] at hres
        have htup : (n0, p0, l0) = (n, p, l) :=
          Except.ok.inj hres
        have hcomp : n0 = n ∧ p0 = p ∧ l0 = l := by simpa using htup
        obtain ⟨rfl, rfl, rfl⟩ := hcomp
        exact pagenum_le_pages a.x a.y s.x s.y a.w a.h s.w s.h hc1 hc2 hbig
          n0 p0 hn hp

/-- Witness for C1 (amended): a thumb `(0, 0, 4, 50)` inside a track
`(0, 0, 4, 100)` gives the triple `(1, 2, 6)`, whose current page 1 is
below the total 2. -/
theorem c1_page_invariant_witness : (1 : ℕ) ≤ 2 :=
  c1_page_invariant Unit contoursTop (fun _ => shapeTall) drawId false ()
    thumbTop trackFull detect_top_60 detect_top_25
    (by norm_num [thumbTop, trackFull])
    (by norm_num [thumbTop, trackFull])
    (by norm_num [thumbTop, trackFull])
    1 2 6
    (by
      rw [guess_pageinfo_single contoursTop (fun _ => shapeTall) drawId false ()
        thumbTop trackFull detect_top_60 detect_top_25]
      simp [thumbTop, trackFull, pages_4_50, pagenum_0_0, lines_4_50,
        except_bind_ok])

/-- C9 counterexample: with the diagnostic drawing enabled, the first
call draws into the analyzed buffer (modelled by `drawBump`), and the
second call on the resulting buffer sees different contours and returns
a different triple — the two successive results are not identical. -/
theorem c9_counterexample :
    (guess_pageinfo contoursOfBuf (fun _ => shapeTall) drawBump true 0).1 =
      .ok (1, 2, 6) ∧
    (guess_pageinfo contoursOfBuf (fun _ => shapeTall) drawBump true
      ((guess_pageinfo contoursOfBuf (fun _ => shapeTall) drawBump true 0).2)).1 =
      .ok (1, 1, 0) ∧
    (Except.ok (1, 2, 6) : Except GuessError (ℕ × ℕ × ℕ)) ≠ .ok (1, 1, 0) := by
  have hsnd : (guess_pageinfo contoursOfBuf (fun _ => shapeTall) drawBump true 0).2
      = 1 := by
    rw [pageinfo_snd_single contoursOfBuf (fun _ => shapeTall) drawBump 0
      thumbTop trackFull detect_buf0_60 detect_buf0_25]
    rfl
  refine ⟨?_, ?_, by simp⟩
  · rw [guess_pageinfo_single contoursOfBuf (fun _ => shapeTall) drawBump true 0
      thumbTop trackFull detect_buf0_60 detect_buf0_25]
    simp [thumbTop, trackFull, pages_4_50, pagenum_0_0, lines_4_50,
      except_bind_ok]
  · rw [hsnd]
    exact pageinfo_thumb_empty contoursOfBuf (fun _ => shapeTall) drawBump true 1
      detect_buf1_60

/-- C9 (amended): with the diagnostic drawing disabled, `guess_pageinfo`
leaves the buffer unchanged and two successive calls yield identical
results; moreover the debug flag never affects the returned triple of a
single call — only the buffer it leaves behind. -/
theorem c9_idempotent_without_debug (Img : Type)
    (contoursOf : Img → ℤ → List Contour) (shapeOf : Img → ImShape)
    (draw : Img → List Contour → List Contour → Img) (debug : Bool) (im : Img) :
    (guess_pageinfo contoursOf shapeOf draw false im).2 = im ∧
    (guess_pageinfo contoursOf shapeOf draw false
      ((guess_pageinfo contoursOf shapeOf draw false im).2)).1 =
      (guess_pageinfo contoursOf shapeOf draw false im).1 ∧
    (guess_pageinfo contoursOf shapeOf draw debug im).1 =
      (guess_pageinfo contoursOf shapeOf draw false im).1 := by
  have hsnd : (guess_pageinfo contoursOf shapeOf draw false im).2 = im := by
    unfold guess_pageinfo
    cases h1 : _detect_scrollbar_region (contoursOf im) (shapeOf im) 60
        filter_contour_scrollbar with
    | nil => simp [h1]
    | cons a t =>
      cases h2 : _detect_scrollbar_region (contoursOf im) (shapeOf im) 25
          filter_contour_scrollable_area with
      | nil => simp [h1, h2]
      | cons s t2 => simp [h1, h2, apply_ite Prod.snd]
  refine ⟨hsnd, by rw [hsnd], ?_⟩
  unfold guess_pageinfo
  cases h1 : _detect_scrollbar_region (contoursOf im) (shapeOf im) 60
      filter_contour_scrollbar with
  | nil => simp [h1]
  | cons a t =>
    cases h2 : _detect_scrollbar_region (contoursOf im) (shapeOf im) 25
        filter_contour_scrollable_area with
    | nil => simp [h1, h2]
    | cons s t2 => simp [h1, h2, apply_ite Prod.fst]

/-- C2: the embedded `filter_contour_qp` accepts the contour `cQp` on the
crop `imQp` although the crop's width (`s1 = 500`) violates the claimed
gate `w * 1.2 < imageWidth < w * 2`; the gate the code actually applies
compares against `shape[0]` (`s0 = 300`, the crop's height), because the
source unpacks `im.shape[:2]` — which is `(rows, cols)` — as
`(im_w, im_h)`. -/
theorem c2_qp_filter_width_gate :
    filter_contour_qp cQp imQp = true ∧
    ¬ ((cQp.w : ℚ) * 1.2 < (imQp.s1 : ℚ) ∧ (imQp.s1 : ℚ) < (cQp.w : ℚ) * 2) ∧
    ((cQp.w : ℚ) * 1.2 < (imQp.s0 : ℚ) ∧ (imQp.s0 : ℚ) < (cQp.w : ℚ) * 2) := by
  refine ⟨?_, ?_, ?_⟩
  · norm_num [filter_contour_qp, cQp, imQp]
  · rintro ⟨h1, h2⟩
    norm_num [cQp, imQp] at h2
  · constructor <;> norm_num [cQp, imQp]
